import Mathlib

/-!
Verification of the cloth ("cape") and wind-field simulation core of the Loom
repository.  The C++ sources under src/ (Vector2D, Vector3D, VerletParticle,
VerletParticle3D, VerletConstraint, BendingConstraint, their 3D counterparts,
PerlinNoise, WindField, WindField3D, Cape, Cape3D) are shallowly embedded as
Lean definitions over the real numbers; C++ float values are modelled as exact
reals.  Constraints referencing particles through raw pointers are modelled as
pure functions on the referenced particles (and, for the cape grids, as
index-based handles into the particle list, which is the observable behaviour
of the pointer links into the fixed particle array).
-/

namespace Loom

noncomputable section

/-- Two-dimensional vector, from src/core/Vector2D. -/
@[ext]
structure Vector2D where
  x : ℝ
  y : ℝ

namespace Vector2D

def add (a b : Vector2D) : Vector2D := ⟨a.x + b.x, a.y + b.y⟩

def sub (a b : Vector2D) : Vector2D := ⟨a.x - b.x, a.y - b.y⟩

/-- Scalar multiplication, the source's operator* with a float. -/
def smul (a : Vector2D) (s : ℝ) : Vector2D := ⟨a.x * s, a.y * s⟩

def divs (a : Vector2D) (s : ℝ) : Vector2D := ⟨a.x / s, a.y / s⟩

def lengthSquared (a : Vector2D) : ℝ := a.x * a.x + a.y * a.y

noncomputable def length (a : Vector2D) : ℝ := Real.sqrt (a.x * a.x + a.y * a.y)

def zero : Vector2D := ⟨0, 0⟩

noncomputable def normalized (a : Vector2D) : Vector2D :=
  if a.length > 0.0001 then a.divs a.length else zero

def dot (a b : Vector2D) : ℝ := a.x * b.x + a.y * b.y

def cross (a b : Vector2D) : ℝ := a.x * b.y - a.y * b.x

noncomputable def rotated (a : Vector2D) (angle : ℝ) : Vector2D :=
  ⟨a.x * Real.cos angle - a.y * Real.sin angle,
   a.x * Real.sin angle + a.y * Real.cos angle⟩

end Vector2D

/-- Three-dimensional vector, from src/core/Vector3D. -/
@[ext]
structure Vector3D where
  x : ℝ
  y : ℝ
  z : ℝ

namespace Vector3D

def add (a b : Vector3D) : Vector3D := ⟨a.x + b.x, a.y + b.y, a.z + b.z⟩

def sub (a b : Vector3D) : Vector3D := ⟨a.x - b.x, a.y - b.y, a.z - b.z⟩

def smul (a : Vector3D) (s : ℝ) : Vector3D := ⟨a.x * s, a.y * s, a.z * s⟩

def divs (a : Vector3D) (s : ℝ) : Vector3D := ⟨a.x / s, a.y / s, a.z / s⟩

def lengthSquared (a : Vector3D) : ℝ := a.x * a.x + a.y * a.y + a.z * a.z

noncomputable def length (a : Vector3D) : ℝ :=
  Real.sqrt (a.x * a.x + a.y * a.y + a.z * a.z)

def zero : Vector3D := ⟨0, 0, 0⟩

noncomputable def normalized (a : Vector3D) : Vector3D :=
  if a.length > 0.0001 then a.divs a.length else zero

def dot (a b : Vector3D) : ℝ := a.x * b.x + a.y * b.y + a.z * b.z

def cross (a b : Vector3D) : Vector3D :=
  ⟨a.y * b.z - a.z * b.y, a.z * b.x - a.x * b.z, a.x * b.y - a.y * b.x⟩

end Vector3D

/-- Sum of a list of 2D vectors (used to restate the event loops of the wind
fields as a loop-free sum). -/
def sumV2 (l : List Vector2D) : Vector2D := l.foldl Vector2D.add Vector2D.zero

/-- Sum of a list of 3D vectors. -/
def sumV3 (l : List Vector3D) : Vector3D := l.foldl Vector3D.add Vector3D.zero

/-- Model of std::atan2 (used by BendingConstraint in 2D): the angle of the
point (x, y) in (-pi, pi], with atan2 0 0 = 0 as guaranteed by the C library
for positive-zero arguments. -/
noncomputable def atan2 (y x : ℝ) : ℝ :=
  if 0 < x then Real.arctan (y / x)
  else if x < 0 ∧ 0 ≤ y then Real.arctan (y / x) + Real.pi
  else if x < 0 ∧ y < 0 then Real.arctan (y / x) - Real.pi
  else if x = 0 ∧ 0 < y then Real.pi / 2
  else if x = 0 ∧ y < 0 then -(Real.pi / 2)
  else 0

/-- Closed form of the two angle-wrapping while loops of
BendingConstraint::solve: subtract 6.28318 while the value exceeds 3.14159,
then add 6.28318 while it is below -3.14159.  The ceiling expressions count
the exact number of iterations each loop performs. -/
noncomputable def wrapAngle (d : ℝ) : ℝ :=
  let d1 := if 3.14159 < d then d - 6.28318 * (⌈(d - 3.14159) / 6.28318⌉ : ℤ) else d
  if d1 < -3.14159 then d1 + 6.28318 * (⌈(-3.14159 - d1) / 6.28318⌉ : ℤ) else d1

/-- Point-mass particle, from src/physics/VerletParticle. -/
structure VerletParticle where
  position : Vector2D
  previousPosition : Vector2D
  acceleration : Vector2D
  mass : ℝ
  pinned : Bool
  damping : ℝ

/-- The source's default constructor: origin, mass 1, unpinned, damping 0.99. -/
instance : Inhabited VerletParticle :=
  ⟨⟨Vector2D.zero, Vector2D.zero, Vector2D.zero, 1, false, 0.99⟩⟩

namespace VerletParticle

def applyForce (p : VerletParticle) (force : Vector2D) : VerletParticle :=
  if p.pinned = false then
    { p with acceleration := p.acceleration.add (force.divs p.mass) }
  else p

def update (p : VerletParticle) (dt : ℝ) : VerletParticle :=
  if p.pinned = true then { p with acceleration := Vector2D.zero }
  else
    let velocity := (p.position.sub p.previousPosition).smul p.damping
    { p with
      previousPosition := p.position
      position := (p.position.add velocity).add (p.acceleration.smul (dt * dt))
      acceleration := Vector2D.zero }

def getVelocity (p : VerletParticle) : Vector2D := p.position.sub p.previousPosition

def setVelocity (p : VerletParticle) (vel : Vector2D) : VerletParticle :=
  { p with previousPosition := p.position.sub vel }

def moveTo (p : VerletParticle) (pos : Vector2D) : VerletParticle :=
  let delta := pos.sub p.position
  if p.pinned = true then { p with position := pos, previousPosition := pos }
  else { p with position := pos, previousPosition := p.previousPosition.add delta }

end VerletParticle

/-- Point-mass particle, from src/physics/VerletParticle3D. -/
structure VerletParticle3D where
  position : Vector3D
  previousPosition : Vector3D
  acceleration : Vector3D
  mass : ℝ
  pinned : Bool
  damping : ℝ
  radius : ℝ

instance : Inhabited VerletParticle3D :=
  ⟨⟨Vector3D.zero, Vector3D.zero, Vector3D.zero, 1, false, 0.99, 0.5⟩⟩

namespace VerletParticle3D

def applyForce (p : VerletParticle3D) (force : Vector3D) : VerletParticle3D :=
  if p.pinned = false then
    { p with acceleration := p.acceleration.add (force.divs p.mass) }
  else p

def update (p : VerletParticle3D) (dt : ℝ) : VerletParticle3D :=
  if p.pinned = true then { p with acceleration := Vector3D.zero }
  else
    let velocity := (p.position.sub p.previousPosition).smul p.damping
    { p with
      previousPosition := p.position
      position := (p.position.add velocity).add (p.acceleration.smul (dt * dt))
      acceleration := Vector3D.zero }

def getVelocity (p : VerletParticle3D) : Vector3D := p.position.sub p.previousPosition

def setVelocity (p : VerletParticle3D) (vel : Vector3D) : VerletParticle3D :=
  { p with previousPosition := p.position.sub vel }

def moveTo (p : VerletParticle3D) (pos : Vector3D) : VerletParticle3D :=
  let delta := pos.sub p.position
  if p.pinned = true then { p with position := pos, previousPosition := pos }
  else { p with position := pos, previousPosition := p.previousPosition.add delta }

end VerletParticle3D

/-- VerletConstraint::solve from src/physics/VerletConstraint.cpp, as a pure
function of the two referenced particles and the constraint fields, returning
the updated particles.  The null-pointer guard of the source is dropped: in
this embedding constraints always reference two particles. -/
noncomputable def VerletConstraint.solve (active : Bool) (restLength stiffness : ℝ)
    (pa pb : VerletParticle) : VerletParticle × VerletParticle :=
  if active = false then (pa, pb)
  else
    let delta := pb.position.sub pa.position
    let currentLength := delta.length
    if currentLength < 0.0001 then (pa, pb)
    else
      let diff := (currentLength - restLength) / currentLength
      let correction := delta.smul (diff * 0.5 * stiffness)
      if pa.pinned = false ∧ pb.pinned = false then
        let totalMass := pa.mass + pb.mass
        let ratioA := pb.mass / totalMass
        let ratioB := pa.mass / totalMass
        ({ pa with position := pa.position.add (correction.smul ratioA) },
         { pb with position := pb.position.sub (correction.smul ratioB) })
      else if pa.pinned = false then
        ({ pa with position := pa.position.add (correction.smul 2) }, pb)
      else if pb.pinned = false then
        (pa, { pb with position := pb.position.sub (correction.smul 2) })
      else (pa, pb)

/-- BendingConstraint::solve from src/physics/VerletConstraint.cpp (2D), as a
pure function of the three referenced particles and the constraint fields.
The pivot particle B is returned unchanged, as in the source. -/
noncomputable def BendingConstraint.solve (restAngle stiffness : ℝ)
    (pa pb pc : VerletParticle) : VerletParticle × VerletParticle × VerletParticle :=
  let ba := pa.position.sub pb.position
  let bc := pc.position.sub pb.position
  let currentAngle := atan2 (ba.cross bc) (ba.dot bc)
  let angleDiff := wrapAngle (currentAngle - restAngle)
  let correction := angleDiff * stiffness * 0.5
  let pa2 := if pa.pinned = false then
    { pa with position := pb.position.add (ba.rotated (-correction)) } else pa
  let pc2 := if pc.pinned = false then
    { pc with position := pb.position.add (bc.rotated correction) } else pc
  (pa2, pb, pc2)

/-- VerletConstraint3D::solve from src/physics/VerletParticle3D.cpp. -/
noncomputable def VerletConstraint3D.solve (active : Bool) (restLength stiffness : ℝ)
    (pa pb : VerletParticle3D) : VerletParticle3D × VerletParticle3D :=
  if active = false then (pa, pb)
  else
    let delta := pb.position.sub pa.position
    let currentLength := delta.length
    if currentLength < 0.0001 then (pa, pb)
    else
      let diff := (currentLength - restLength) / currentLength
      let correction := delta.smul (diff * 0.5 * stiffness)
      if pa.pinned = false ∧ pb.pinned = false then
        let totalMass := pa.mass + pb.mass
        let ratioA := pb.mass / totalMass
        let ratioB := pa.mass / totalMass
        ({ pa with position := pa.position.add (correction.smul ratioA) },
         { pb with position := pb.position.sub (correction.smul ratioB) })
      else if pa.pinned = false then
        ({ pa with position := pa.position.add (correction.smul 2) }, pb)
      else if pb.pinned = false then
        (pa, { pb with position := pb.position.sub (correction.smul 2) })
      else (pa, pb)

/-- BendingConstraint3D::solve from src/physics/VerletParticle3D.cpp. -/
noncomputable def BendingConstraint3D.solve (restAngle stiffness : ℝ)
    (pa pb pc : VerletParticle3D) : VerletParticle3D × VerletParticle3D × VerletParticle3D :=
  let ba := pa.position.sub pb.position
  let bc := pc.position.sub pb.position
  let baLen := ba.length
  let bcLen := bc.length
  if baLen < 0.001 ∨ bcLen < 0.001 then (pa, pb, pc)
  else
    let baNorm := ba.divs baLen
    let bcNorm := bc.divs bcLen
    let d := min (max (baNorm.dot bcNorm) (-1)) 1
    let currentAngle := Real.arccos d
    let angleDiff := currentAngle - restAngle
    if |angleDiff| < 0.001 then (pa, pb, pc)
    else
      let axis := baNorm.cross bcNorm
      let axisLen := axis.length
      if axisLen < 0.001 then (pa, pb, pc)
      else
        let axisN := axis.divs axisLen
        let correction := angleDiff * stiffness * 0.5
        let pa2 := if pa.pinned = false then
          { pa with position := pa.position.add ((axisN.cross ba).smul correction) } else pa
        let pc2 := if pc.pinned = false then
          { pc with position := pc.position.add ((axisN.cross bc).smul (-correction)) } else pc
        (pa2, pb, pc2)

/-- State of the minstd linear congruential engine used to model
std::default_random_engine: next state is 16807 * s mod 2147483647. -/
def lcgNext (s : ℕ) : ℕ := 16807 * s % 2147483647

/-- Engine seeding: the seed reduced mod 2147483647, with 0 mapped to 1. -/
def lcgSeed (seed : ℕ) : ℕ :=
  let m := seed % 2147483647
  if m = 0 then 1 else m

/-- Swap two positions of a list (out-of-range indices read the default 0). -/
def listSwap (l : List ℕ) (i j : ℕ) : List ℕ :=
  (l.set i (l.getD j 0)).set j (l.getD i 0)

/-- Fisher-Yates pass from index i+1 down to 1, driven by the engine state. -/
def fisherYatesAux : ℕ → List ℕ → ℕ → List ℕ
  | 0, l, _ => l
  | i + 1, l, s =>
      let s1 := lcgNext s
      let j := s1 % (i + 2)
      fisherYatesAux i (listSwap l (i + 1) j) s1

/-- Model of std::shuffle over the first n entries of the permutation list,
driven by a std::default_random_engine seeded with the given seed.  The exact
shuffle algorithm is implementation-defined in C++ but is a deterministic
function of the engine, which is all the code relies on; it is modelled here
as a Fisher-Yates shuffle consuming one engine output per step. -/
def shuffleModel (l : List ℕ) (seed : ℕ) : List ℕ :=
  fisherYatesAux (l.length - 1) l (lcgSeed seed)

/-- Perlin noise generator state: the 512-entry permutation table p, from
src/utils/PerlinNoise. -/
structure PerlinNoise where
  p : List ℕ

namespace PerlinNoise

/-- PerlinNoise::reseed: fill the first 256 entries with 0..255, shuffle them
with an engine seeded from the seed, and duplicate them into entries 256..511.
Every future output is a pure function of this table, hence of the seed. -/
def reseed (seed : ℕ) : PerlinNoise :=
  let fst := shuffleModel (List.range 256) seed
  ⟨fst ++ fst⟩

/-- The fade curve 6t^5 - 15t^4 + 10t^3 written as in the source. -/
def fade (t : ℝ) : ℝ := t * t * t * (t * (t * 6 - 15) + 10)

def lerp (t a b : ℝ) : ℝ := a + t * (b - a)

/-- Gradient selection for 3D noise (hash & 15 and the branch ladder of the
source; bit tests hash & 1 and hash & 2 select the signs). -/
def grad3 (hash : ℕ) (x y z : ℝ) : ℝ :=
  let h := hash % 16
  let u := if h < 8 then x else y
  let v := if h < 4 then y else (if h = 12 ∨ h = 14 then x else z)
  (if h % 2 = 1 then -u else u) + (if h / 2 % 2 = 1 then -v else v)

/-- Gradient selection for 2D noise (hash & 7). -/
def grad2 (hash : ℕ) (x y : ℝ) : ℝ :=
  let h := hash % 8
  let u := if h < 4 then x else y
  let v := if h < 4 then y else x
  (if h % 2 = 1 then -u else u) + (if h / 2 % 2 = 1 then -v else v)

/-- Table lookup p[i]; indices produced by the noise functions are always in
range of the 512-entry table. -/
def at2 (g : PerlinNoise) (i : ℕ) : ℕ := g.p.getD i 0

/-- Lattice coordinate: static_cast of floor to int, masked with & 255, which
for a two's-complement int is the value mod 256. -/
def lattice (x : ℝ) : ℕ := ((⌊x⌋ : ℤ).emod 256).toNat

/-- PerlinNoise::noise(x, y). -/
def noise2 (g : PerlinNoise) (x y : ℝ) : ℝ :=
  let X := lattice x
  let Y := lattice y
  let xf := x - ⌊x⌋
  let yf := y - ⌊y⌋
  let u := fade xf
  let v := fade yf
  let A := g.at2 X + Y
  let AA := g.at2 A
  let AB := g.at2 (A + 1)
  let B := g.at2 (X + 1) + Y
  let BA := g.at2 B
  let BB := g.at2 (B + 1)
  lerp v
    (lerp u (grad2 AA xf yf) (grad2 BA (xf - 1) yf))
    (lerp u (grad2 AB xf (yf - 1)) (grad2 BB (xf - 1) (yf - 1)))

/-- PerlinNoise::noise(x, y, z). -/
def noise3 (g : PerlinNoise) (x y z : ℝ) : ℝ :=
  let X := lattice x
  let Y := lattice y
  let Z := lattice z
  let xf := x - ⌊x⌋
  let yf := y - ⌊y⌋
  let zf := z - ⌊z⌋
  let u := fade xf
  let v := fade yf
  let w := fade zf
  let A := g.at2 X + Y
  let AA := g.at2 A + Z
  let AB := g.at2 (A + 1) + Z
  let B := g.at2 (X + 1) + Y
  let BA := g.at2 B + Z
  let BB := g.at2 (B + 1) + Z
  lerp w
    (lerp v
      (lerp u (grad3 (g.at2 AA) xf yf zf) (grad3 (g.at2 BA) (xf - 1) yf zf))
      (lerp u (grad3 (g.at2 AB) xf (yf - 1) zf) (grad3 (g.at2 BB) (xf - 1) (yf - 1) zf)))
    (lerp v
      (lerp u (grad3 (g.at2 (AA + 1)) xf yf (zf - 1)) (grad3 (g.at2 (BA + 1)) (xf - 1) yf (zf - 1)))
      (lerp u (grad3 (g.at2 (AB + 1)) xf (yf - 1) (zf - 1)) (grad3 (g.at2 (BB + 1)) (xf - 1) (yf - 1) (zf - 1))))

/-- PerlinNoise::noise(x) delegates to the 3D sampler at y = z = 0. -/
def noise1 (g : PerlinNoise) (x : ℝ) : ℝ := g.noise3 x 0 0

/-- Accumulator state (total, frequency, amplitude, maxValue) of the 2D
octaveNoise loop after the given number of iterations. -/
def octState2 (g : PerlinNoise) (x y persistence : ℝ) : ℕ → ℝ × ℝ × ℝ × ℝ
  | 0 => (0, 1, 1, 0)
  | n + 1 =>
      let st := octState2 g x y persistence n
      let total := st.1
      let frequency := st.2.1
      let amplitude := st.2.2.1
      let maxValue := st.2.2.2
      (total + g.noise2 (x * frequency) (y * frequency) * amplitude,
       frequency * 2, amplitude * persistence, maxValue + amplitude)

/-- PerlinNoise::octaveNoise(x, y, octaves, persistence). -/
def octaveNoise2 (g : PerlinNoise) (x y : ℝ) (octaves : ℕ) (persistence : ℝ) : ℝ :=
  let st := octState2 g x y persistence octaves
  st.1 / st.2.2.2

/-- Accumulator state of the 3D octaveNoise loop. -/
def octState3 (g : PerlinNoise) (x y z persistence : ℝ) : ℕ → ℝ × ℝ × ℝ × ℝ
  | 0 => (0, 1, 1, 0)
  | n + 1 =>
      let st := octState3 g x y z persistence n
      let total := st.1
      let frequency := st.2.1
      let amplitude := st.2.2.1
      let maxValue := st.2.2.2
      (total + g.noise3 (x * frequency) (y * frequency) (z * frequency) * amplitude,
       frequency * 2, amplitude * persistence, maxValue + amplitude)

/-- PerlinNoise::octaveNoise(x, y, z, octaves, persistence). -/
def octaveNoise3 (g : PerlinNoise) (x y z : ℝ) (octaves : ℕ) (persistence : ℝ) : ℝ :=
  let st := octState3 g x y z persistence octaves
  st.1 / st.2.2.2

end PerlinNoise

/-- Wind configuration, from src/physics/WindField.hpp. -/
structure WindConfig where
  baseStrength : ℝ
  gustStrength : ℝ
  turbulence : ℝ
  noiseScale : ℝ
  timeScale : ℝ
  baseDirection : Vector2D

/-- The defaulted field values of WindConfig. -/
def WindConfig.default : WindConfig := ⟨50, 80, 0.3, 0.008, 0.5, ⟨1, 0.2⟩⟩

/-- Transient gust event of the 2D wind field. -/
structure Gust where
  position : Vector2D
  strength : ℝ
  radius : ℝ
  duration : ℝ
  elapsed : ℝ

instance : Inhabited Gust := ⟨⟨Vector2D.zero, 0, 0, 0, 0⟩⟩

/-- 2D wind field state, from src/physics/WindField. -/
structure WindField where
  noiseGen : PerlinNoise
  config : WindConfig
  time : ℝ
  gusts : List Gust

namespace WindField

/-- The WindField constructor: noise seeded with 12345, time 0, no gusts. -/
def create (config : WindConfig) : WindField := ⟨PerlinNoise.reseed 12345, config, 0, []⟩

def age (dt : ℝ) (g : Gust) : Gust := { g with elapsed := g.elapsed + dt }

/-- WindField::update: advance the clock by dt * timeScale, erase the gusts
whose elapsed has reached their duration, then age the survivors by dt. -/
def update (f : WindField) (dt : ℝ) : WindField :=
  { f with
    time := f.time + dt * f.config.timeScale
    gusts := (f.gusts.filter fun g => decide (g.elapsed < g.duration)).map (age dt) }

/-- WindField::addGust: append a new gust with elapsed 0. -/
def addGust (f : WindField) (position : Vector2D) (strength radius duration : ℝ) : WindField :=
  { f with gusts := f.gusts ++ [⟨position, strength, radius, duration, 0⟩] }

/-- WindField::sampleNoise. -/
def sampleNoise (f : WindField) (x y t : ℝ) : Vector2D :=
  let nx := f.noiseGen.octaveNoise3 (x * f.config.noiseScale) (y * f.config.noiseScale) t 3 0.5
  let ny := f.noiseGen.octaveNoise3 (x * f.config.noiseScale + 100) (y * f.config.noiseScale + 100) (t + 50) 3 0.5
  ⟨nx, ny⟩

/-- Contribution of one gust to WindField::getWindAt at the query point: the
body of the gust loop. -/
def gustContrib (x y : ℝ) (g : Gust) : Vector2D :=
  let toPoint := (Vector2D.mk x y).sub g.position
  let dist := toPoint.length
  if dist < g.radius then
    let falloff0 := 1 - dist / g.radius
    let falloff := falloff0 * falloff0
    let timeRatio := g.elapsed / g.duration
    let timeFalloff := Real.sin (timeRatio * 3.14159)
    ((toPoint.normalized.smul g.strength).smul falloff).smul timeFalloff
  else Vector2D.zero

/-- The totalWind value of WindField::getWindAt before the gust loop: base
wind plus turbulence plus the noise-gated gust term. -/
def ambientWind (f : WindField) (x y : ℝ) : Vector2D :=
  let noiseVec := f.sampleNoise x y f.time
  let turbulentWind := noiseVec.smul f.config.turbulence
  let baseWind := f.config.baseDirection.normalized.smul f.config.baseStrength
  let gustNoise := f.noiseGen.octaveNoise3 (x * f.config.noiseScale * 0.5)
    (y * f.config.noiseScale * 0.5) (f.time * 0.3) 2 0.5
  let gustNoiseC := max 0 gustNoise
  let gustWind := (f.config.baseDirection.normalized.smul gustNoiseC).smul f.config.gustStrength
  (baseWind.add (turbulentWind.smul f.config.baseStrength)).add gustWind

/-- WindField::getWindAt(x, y): the ambient terms, then the gust loop folded
over the event list. -/
def getWindAt (f : WindField) (x y : ℝ) : Vector2D :=
  f.gusts.foldl (fun acc g => acc.add (gustContrib x y g)) (f.ambientWind x y)

/-- WindField::getStrengthAt. -/
def getStrengthAt (f : WindField) (p : Vector2D) : ℝ := (f.getWindAt p.x p.y).length

end WindField

/-- Wind configuration, from src/physics/WindField3D.hpp. -/
structure WindConfig3D where
  baseStrength : ℝ
  gustStrength : ℝ
  turbulence : ℝ
  noiseScale : ℝ
  timeScale : ℝ
  baseDirection : Vector3D
  verticalInfluence : ℝ
  curlStrength : ℝ

/-- The defaulted field values of WindConfig3D. -/
def WindConfig3D.default : WindConfig3D := ⟨60, 100, 0.4, 0.006, 0.4, ⟨1, 0, 0.2⟩, 0.3, 0.5⟩

/-- Transient directional gust event of the 3D wind field. -/
structure Gust3D where
  position : Vector3D
  direction : Vector3D
  strength : ℝ
  radius : ℝ
  duration : ℝ
  elapsed : ℝ

instance : Inhabited Gust3D := ⟨⟨Vector3D.zero, Vector3D.zero, 0, 0, 0, 0⟩⟩

/-- Transient vortex event of the 3D wind field. -/
structure Vortex where
  position : Vector3D
  axis : Vector3D
  strength : ℝ
  radius : ℝ
  duration : ℝ
  elapsed : ℝ

instance : Inhabited Vortex := ⟨⟨Vector3D.zero, Vector3D.zero, 0, 0, 0, 0⟩⟩

/-- 3D wind field state, from src/physics/WindField3D. -/
structure WindField3D where
  noiseGen : PerlinNoise
  noiseGenY : PerlinNoise
  noiseGenZ : PerlinNoise
  config : WindConfig3D
  time : ℝ
  gusts : List Gust3D
  vortices : List Vortex

namespace WindField3D

/-- The WindField3D constructor: the three noise generators seeded with 12345,
54321 and 98765, time 0, no events. -/
def create (config : WindConfig3D) : WindField3D :=
  ⟨PerlinNoise.reseed 12345, PerlinNoise.reseed 54321, PerlinNoise.reseed 98765, config, 0, [], []⟩

def ageGust (dt : ℝ) (g : Gust3D) : Gust3D := { g with elapsed := g.elapsed + dt }

def ageVortex (dt : ℝ) (v : Vortex) : Vortex := { v with elapsed := v.elapsed + dt }

/-- WindField3D::update: advance the clock, erase events whose elapsed has
reached their duration, then age the survivors by dt. -/
def update (f : WindField3D) (dt : ℝ) : WindField3D :=
  { f with
    time := f.time + dt * f.config.timeScale
    gusts := (f.gusts.filter fun g => decide (g.elapsed < g.duration)).map (ageGust dt)
    vortices := (f.vortices.filter fun v => decide (v.elapsed < v.duration)).map (ageVortex dt) }

/-- WindField3D::addGust. -/
def addGust (f : WindField3D) (position direction : Vector3D) (strength radius duration : ℝ) :
    WindField3D :=
  { f with gusts := f.gusts ++ [⟨position, direction, strength, radius, duration, 0⟩] }

/-- WindField3D::addVortex: the stored axis is normalized. -/
def addVortex (f : WindField3D) (position axis : Vector3D) (strength radius duration : ℝ) :
    WindField3D :=
  { f with vortices := f.vortices ++ [⟨position, axis.normalized, strength, radius, duration, 0⟩] }

/-- WindField3D::sampleNoise. -/
def sampleNoise (f : WindField3D) (x y z t : ℝ) : Vector3D :=
  let scale := f.config.noiseScale
  let nx := f.noiseGen.octaveNoise3 (x * scale) (y * scale) (z * scale + t) 3 0.5
  let ny := f.noiseGenY.octaveNoise3 (x * scale + 100) (y * scale + 100) (z * scale + t + 50) 3 0.5
  let nz := f.noiseGenZ.octaveNoise3 (x * scale + 200) (y * scale + 200) (z * scale + t + 100) 3 0.5
  ⟨nx, ny * f.config.verticalInfluence, nz⟩

/-- WindField3D::getCurlAt: discrete curl of the sampled noise field by
central differences. -/
def getCurlAt (f : WindField3D) (position : Vector3D) (epsilon : ℝ) : Vector3D :=
  let px := position.x
  let py := position.y
  let pz := position.z
  let dFdx := ((f.sampleNoise (px + epsilon) py pz f.time).sub
    (f.sampleNoise (px - epsilon) py pz f.time)).divs (2 * epsilon)
  let dFdy := ((f.sampleNoise px (py + epsilon) pz f.time).sub
    (f.sampleNoise px (py - epsilon) pz f.time)).divs (2 * epsilon)
  let dFdz := ((f.sampleNoise px py (pz + epsilon) f.time).sub
    (f.sampleNoise px py (pz - epsilon) f.time)).divs (2 * epsilon)
  ⟨dFdy.z - dFdz.y, dFdz.x - dFdx.z, dFdx.y - dFdy.x⟩

/-- Contribution of one gust to WindField3D::getWindAt: the body of the gust
loop. -/
def gustContrib (x y z : ℝ) (g : Gust3D) : Vector3D :=
  let toPoint := (Vector3D.mk x y z).sub g.position
  let dist := toPoint.length
  if dist < g.radius then
    let falloff0 := 1 - dist / g.radius
    let falloff := falloff0 * falloff0
    let timeRatio := g.elapsed / g.duration
    let timeFalloff := Real.sin (timeRatio * 3.14159)
    ((g.direction.normalized.smul g.strength).smul falloff).smul timeFalloff
  else Vector3D.zero

/-- Contribution of one vortex to WindField3D::getWindAt: the body of the
vortex loop.  Note the loop requires the projected distance to exceed 0.1 in
addition to lying inside the radius. -/
def vortexContrib (x y z : ℝ) (v : Vortex) : Vector3D :=
  let toPoint := (Vector3D.mk x y z).sub v.position
  let projected := toPoint.sub (v.axis.smul (toPoint.dot v.axis))
  let dist := projected.length
  if dist < v.radius ∧ 0.1 < dist then
    let falloff0 := 1 - dist / v.radius
    let falloff := falloff0 * falloff0
    let timeRatio := v.elapsed / v.duration
    let timeFalloff := Real.sin (timeRatio * 3.14159)
    let tangent := (v.axis.cross projected).normalized
    ((tangent.smul v.strength).smul falloff).smul timeFalloff
  else Vector3D.zero

/-- The totalWind value of WindField3D::getWindAt before the event loops:
base wind plus turbulence plus the noise-gated gust term plus curl noise. -/
def ambientWind (f : WindField3D) (x y z : ℝ) : Vector3D :=
  let noiseVec := f.sampleNoise x y z f.time
  let turbulentWind := (noiseVec.smul f.config.turbulence).smul f.config.baseStrength
  let baseWind := f.config.baseDirection.normalized.smul f.config.baseStrength
  let gustNoise := f.noiseGen.octaveNoise3 (x * f.config.noiseScale * 0.5)
    (z * f.config.noiseScale * 0.5) (f.time * 0.3) 2 0.5
  let gustNoiseC := max 0 gustNoise
  let gustWind := (f.config.baseDirection.normalized.smul gustNoiseC).smul f.config.gustStrength
  let curlWind := (f.getCurlAt ⟨x, y, z⟩ 0.5).smul f.config.curlStrength
  ((baseWind.add turbulentWind).add gustWind).add curlWind

/-- WindField3D::getWindAt(x, y, z): the ambient terms, then the gust loop,
then the vortex loop. -/
def getWindAt (f : WindField3D) (x y z : ℝ) : Vector3D :=
  let afterGusts := f.gusts.foldl (fun acc g => acc.add (gustContrib x y z g)) (f.ambientWind x y z)
  f.vortices.foldl (fun acc v => acc.add (vortexContrib x y z v)) afterGusts

/-- Vortex contribution as the specification sentence words it, for comparison
with the implementation: whenever the projected displacement lies inside the
radius, add the normalized cross product of the axis with the projected
displacement, scaled by strength, quadratic falloff and the sine envelope.
This follows the spec text, not the source. -/
def vortexContribClaimed (x y z : ℝ) (v : Vortex) : Vector3D :=
  let toPoint := (Vector3D.mk x y z).sub v.position
  let projected := toPoint.sub (v.axis.smul (toPoint.dot v.axis))
  let dist := projected.length
  if dist < v.radius then
    let falloff0 := 1 - dist / v.radius
    let falloff := falloff0 * falloff0
    let timeRatio := v.elapsed / v.duration
    let timeFalloff := Real.sin (timeRatio * 3.14159)
    let tangent := (v.axis.cross projected).normalized
    ((tangent.smul v.strength).smul falloff).smul timeFalloff
  else Vector3D.zero

/-- WindField3D::getStrengthAt. -/
def getStrengthAt (f : WindField3D) (p : Vector3D) : ℝ := (f.getWindAt p.x p.y p.z).length

end WindField3D

/-- Cloth configuration, from src/physics/Cape.hpp. -/
structure CapeConfig where
  segments : ℤ
  width : ℤ
  segmentLength : ℝ
  stiffness : ℝ
  bendStiffness : ℝ
  gravity : ℝ
  windInfluence : ℝ
  damping : ℝ

/-- Distance constraint of the cape, with the source's raw particle pointers
into the fixed particle array rendered as indices into the particle list. -/
structure CapeDist where
  a : ℕ
  b : ℕ
  restLength : ℝ
  stiffness : ℝ
  active : Bool

/-- Bending constraint of the cape, with pointer links rendered as indices. -/
structure CapeBend where
  a : ℕ
  b : ℕ
  c : ℕ
  restAngle : ℝ
  stiffness : ℝ

/-- 2D cloth state, from src/physics/Cape: the particle grid and the
constraint sets connecting it. -/
structure Cape where
  config : CapeConfig
  particles : List VerletParticle
  constraints : List CapeDist
  bendConstraints : List CapeBend

namespace Cape

/-- One constraint.solve() of the structural loop: read the two referenced
particles, run VerletConstraint::solve, write the results back. -/
def applyDist (ps : List VerletParticle) (c : CapeDist) : List VerletParticle :=
  let pa := ps.getD c.a default
  let pb := ps.getD c.b default
  let r := VerletConstraint.solve c.active c.restLength c.stiffness pa pb
  (ps.set c.a r.1).set c.b r.2

/-- One bend.solve() of the bending loop. -/
def applyBend (ps : List VerletParticle) (c : CapeBend) : List VerletParticle :=
  let pa := ps.getD c.a default
  let pb := ps.getD c.b default
  let pc := ps.getD c.c default
  let r := BendingConstraint.solve c.restAngle c.stiffness pa pb pc
  ((ps.set c.a r.1).set c.b r.2.1).set c.c r.2.2

/-- The inner structural loop of Cape::solveConstraints: solve every distance
constraint once, in list order. -/
def solveAllDist (cs : List CapeDist) (ps : List VerletParticle) : List VerletParticle :=
  cs.foldl applyDist ps

/-- The inner bending loop of Cape::solveConstraints: solve every bending
constraint once, in list order. -/
def solveAllBend (cs : List CapeBend) (ps : List VerletParticle) : List VerletParticle :=
  cs.foldl applyBend ps

/-- The body of one pass i of Cape::solveConstraints: all structural
constraints, then all bending constraints when i is even. -/
def pass (c : Cape) (ps : List VerletParticle) (i : ℕ) : List VerletParticle :=
  let ps1 := solveAllDist c.constraints ps
  if i % 2 = 0 then solveAllBend c.bendConstraints ps1 else ps1

/-- Cape::solveConstraints(iterations): the for loop over pass indices
0, 1, ..., iterations - 1. -/
def solveConstraints (c : Cape) (iterations : ℕ) : Cape :=
  { c with particles := (List.range iterations).foldl c.pass c.particles }

end Cape

/-- Cloth configuration, from src/physics/Cape3D.hpp. -/
structure CapeConfig3D where
  segments : ℤ
  width : ℤ
  segmentLength : ℝ
  widthSpacing : ℝ
  stiffness : ℝ
  bendStiffness : ℝ
  gravity : ℝ
  windInfluence : ℝ
  damping : ℝ
  aerodynamicDrag : ℝ
  liftCoefficient : ℝ

/-- 3D cloth state, from src/physics/Cape3D. -/
structure Cape3D where
  config : CapeConfig3D
  particles : List VerletParticle3D
  constraints : List CapeDist
  bendConstraints : List CapeBend

/-- Model of std::clamp(v, lo, hi) on int. -/
def intClamp (v lo hi : ℤ) : ℤ := if v < lo then lo else if hi < v then hi else v

namespace Cape3D

/-- One constraint.solve() of the 3D structural loop. -/
def applyDist (ps : List VerletParticle3D) (c : CapeDist) : List VerletParticle3D :=
  let pa := ps.getD c.a default
  let pb := ps.getD c.b default
  let r := VerletConstraint3D.solve c.active c.restLength c.stiffness pa pb
  (ps.set c.a r.1).set c.b r.2

/-- One bend.solve() of the 3D bending loop. -/
def applyBend (ps : List VerletParticle3D) (c : CapeBend) : List VerletParticle3D :=
  let pa := ps.getD c.a default
  let pb := ps.getD c.b default
  let pc := ps.getD c.c default
  let r := BendingConstraint3D.solve c.restAngle c.stiffness pa pb pc
  ((ps.set c.a r.1).set c.b r.2.1).set c.c r.2.2

/-- The inner structural loop of Cape3D::solveConstraints. -/
def solveAllDist (cs : List CapeDist) (ps : List VerletParticle3D) : List VerletParticle3D :=
  cs.foldl applyDist ps

/-- The inner bending loop of Cape3D::solveConstraints. -/
def solveAllBend (cs : List CapeBend) (ps : List VerletParticle3D) : List VerletParticle3D :=
  cs.foldl applyBend ps

/-- The body of one pass i of Cape3D::solveConstraints. -/
def pass (c : Cape3D) (ps : List VerletParticle3D) (i : ℕ) : List VerletParticle3D :=
  let ps1 := solveAllDist c.constraints ps
  if i % 2 = 0 then solveAllBend c.bendConstraints ps1 else ps1

/-- Cape3D::solveConstraints(iterations). -/
def solveConstraints (c : Cape3D) (iterations : ℕ) : Cape3D :=
  { c with particles := (List.range iterations).foldl c.pass c.particles }

/-- Cape3D::getIndex(row, col) = row * width + col, on int. -/
def getIndex (c : Cape3D) (row col : ℤ) : ℤ := row * c.config.width + col

/-- Position of the particle at a grid index. -/
def posAt (c : Cape3D) (i : ℤ) : Vector3D := (c.particles.getD i.toNat default).position

/-- Cape3D::getNormal(row, col): clamp the arguments into the interior of the
grid, then cross the two central-difference tangents. -/
def getNormal (c : Cape3D) (row0 col0 : ℤ) : Vector3D :=
  let row := intClamp row0 1 (c.config.segments - 2)
  let col := intClamp col0 1 (c.config.width - 2)
  let up := c.posAt (c.getIndex (row - 1) col)
  let down := c.posAt (c.getIndex (row + 1) col)
  let left := c.posAt (c.getIndex row (col - 1))
  let right := c.posAt (c.getIndex row (col + 1))
  let tangentV := (down.sub up).normalized
  let tangentH := (right.sub left).normalized
  (tangentH.cross tangentV).normalized

end Cape3D

end

/-! Helper lemmas shared by the claim theorems. -/

theorem Vector2D.vadd_zero_left2 (a : Vector2D) : Vector2D.zero.add a = a := by
  ext <;> simp [Vector2D.add, Vector2D.zero]

theorem Vector2D.vadd_assoc2 (a b c : Vector2D) : (a.add b).add c = a.add (b.add c) := by
  ext <;> simp [Vector2D.add] <;> ring

theorem Vector3D.vadd_zero_left3 (a : Vector3D) : Vector3D.zero.add a = a := by
  ext <;> simp [Vector3D.add, Vector3D.zero]

theorem Vector3D.vadd_assoc3 (a b c : Vector3D) : (a.add b).add c = a.add (b.add c) := by
  ext <;> simp [Vector3D.add] <;> ring

theorem Vector2D.vadd_zero_right2 (a : Vector2D) : a.add Vector2D.zero = a := by
  ext <;> simp [Vector2D.add, Vector2D.zero]

theorem Vector3D.vadd_zero_right3 (a : Vector3D) : a.add Vector3D.zero = a := by
  ext <;> simp [Vector3D.add, Vector3D.zero]

theorem foldl_vadd_init2 (l : List Vector2D) (i1 i2 : Vector2D) :
    l.foldl Vector2D.add (i1.add i2) = i1.add (l.foldl Vector2D.add i2) := by
  induction l generalizing i2 with
  | nil => rfl
  | cons a t ih => simp only [List.foldl_cons, Vector2D.vadd_assoc2, ih]

theorem foldl_vadd_init3 (l : List Vector3D) (i1 i2 : Vector3D) :
    l.foldl Vector3D.add (i1.add i2) = i1.add (l.foldl Vector3D.add i2) := by
  induction l generalizing i2 with
  | nil => rfl
  | cons a t ih => simp only [List.foldl_cons, Vector3D.vadd_assoc3, ih]

/-- A fold of vector additions over a list is the start value plus the sum of
the mapped contributions. -/
theorem foldl_add_eq_add_sumV2 {α : Type} (f : α → Vector2D) (l : List α) (init : Vector2D) :
    l.foldl (fun acc a => acc.add (f a)) init = init.add (sumV2 (l.map f)) := by
  rw [← List.foldl_map, sumV2]
  conv_lhs => rw [show init = init.add Vector2D.zero from (Vector2D.vadd_zero_right2 init).symm]
  rw [foldl_vadd_init2]

/-- The 3D counterpart of foldl_add_eq_add_sumV2. -/
theorem foldl_add_eq_add_sumV3 {α : Type} (f : α → Vector3D) (l : List α) (init : Vector3D) :
    l.foldl (fun acc a => acc.add (f a)) init = init.add (sumV3 (l.map f)) := by
  rw [← List.foldl_map, sumV3]
  conv_lhs => rw [show init = init.add Vector3D.zero from (Vector3D.vadd_zero_right3 init).symm]
  rw [foldl_vadd_init3]

/-! Claim C1: pinned particles are immovable by forces, integration and
constraint solving; only the external moveTo / setAttachPoint path sets their
position. -/

/-- C1: for every pinned particle (2D or 3D), applyForce followed by
update(dt) leaves the position unchanged; VerletConstraint::solve and
BendingConstraint::solve (2D and 3D) never change a pinned participant's
position, and the bending pivot B is never moved at all; moveTo, the external
call, does set the position. -/
theorem pinned_particle_position_invariant :
    (∀ (p : VerletParticle) (f : Vector2D) (dt : ℝ), p.pinned = true →
      ((p.applyForce f).update dt).position = p.position) ∧
    (∀ (p : VerletParticle3D) (f : Vector3D) (dt : ℝ), p.pinned = true →
      ((p.applyForce f).update dt).position = p.position) ∧
    (∀ (active : Bool) (rl st : ℝ) (pa pb : VerletParticle), pa.pinned = true →
      (VerletConstraint.solve active rl st pa pb).1.position = pa.position) ∧
    (∀ (active : Bool) (rl st : ℝ) (pa pb : VerletParticle), pb.pinned = true →
      (VerletConstraint.solve active rl st pa pb).2.position = pb.position) ∧
    (∀ (active : Bool) (rl st : ℝ) (pa pb : VerletParticle3D), pa.pinned = true →
      (VerletConstraint3D.solve active rl st pa pb).1.position = pa.position) ∧
    (∀ (active : Bool) (rl st : ℝ) (pa pb : VerletParticle3D), pb.pinned = true →
      (VerletConstraint3D.solve active rl st pa pb).2.position = pb.position) ∧
    (∀ (ra st : ℝ) (pa pb pc : VerletParticle), pa.pinned = true →
      (BendingConstraint.solve ra st pa pb pc).1.position = pa.position) ∧
    (∀ (ra st : ℝ) (pa pb pc : VerletParticle),
      (BendingConstraint.solve ra st pa pb pc).2.1 = pb) ∧
    (∀ (ra st : ℝ) (pa pb pc : VerletParticle), pc.pinned = true →
      (BendingConstraint.solve ra st pa pb pc).2.2.position = pc.position) ∧
    (∀ (ra st : ℝ) (pa pb pc : VerletParticle3D), pa.pinned = true →
      (BendingConstraint3D.solve ra st pa pb pc).1.position = pa.position) ∧
    (∀ (ra st : ℝ) (pa pb pc : VerletParticle3D),
      (BendingConstraint3D.solve ra st pa pb pc).2.1 = pb) ∧
    (∀ (ra st : ℝ) (pa pb pc : VerletParticle3D), pc.pinned = true →
      (BendingConstraint3D.solve ra st pa pb pc).2.2.position = pc.position) ∧
    (∀ (p : VerletParticle) (q : Vector2D), p.pinned = true → (p.moveTo q).position = q) ∧
    (∀ (p : VerletParticle3D) (q : Vector3D), p.pinned = true → (p.moveTo q).position = q) := by
  refine ⟨?_, ?_, ?_, ?_, ?_, ?_, ?_, ?_, ?_, ?_, ?_, ?_, ?_, ?_⟩
  · intro p f dt h
    simp [VerletParticle.applyForce, VerletParticle.update, h]
  · intro p f dt h
    simp [VerletParticle3D.applyForce, VerletParticle3D.update, h]
  · intro active rl st pa pb h
    simp only [VerletConstraint.solve]
    split_ifs <;> simp_all
  · intro active rl st pa pb h
    simp only [VerletConstraint.solve]
    split_ifs <;> simp_all
  · intro active rl st pa pb h
    simp only [VerletConstraint3D.solve]
    split_ifs <;> simp_all
  · intro active rl st pa pb h
    simp only [VerletConstraint3D.solve]
    split_ifs <;> simp_all
  · intro ra st pa pb pc h
    simp only [BendingConstraint.solve]
    split_ifs <;> simp_all
  · intro ra st pa pb pc
    simp only [BendingConstraint.solve]
  · intro ra st pa pb pc h
    simp only [BendingConstraint.solve]
    split_ifs <;> simp_all
  · intro ra st pa pb pc h
    simp only [BendingConstraint3D.solve]
    split_ifs <;> simp_all
  · intro ra st pa pb pc
    simp only [BendingConstraint3D.solve]
    split_ifs <;> simp_all
  · intro ra st pa pb pc h
    simp only [BendingConstraint3D.solve]
    split_ifs <;> simp_all
  · intro p q h
    simp [VerletParticle.moveTo, h]
  · intro p q h
    simp [VerletParticle3D.moveTo, h]

/-- Witness for C1 at a concrete pinned particle and a concrete constraint. -/
theorem pinned_particle_position_invariant_witness :
    (VerletParticle.mk ⟨1, 2⟩ ⟨1, 2⟩ ⟨0, 0⟩ 1 true 0.99).pinned = true ∧
    (((VerletParticle.mk ⟨1, 2⟩ ⟨1, 2⟩ ⟨0, 0⟩ 1 true 0.99).applyForce ⟨3, -7⟩).update 0.1).position
      = Vector2D.mk 1 2 ∧
    (VerletConstraint.solve true 5 1 (VerletParticle.mk ⟨1, 2⟩ ⟨1, 2⟩ ⟨0, 0⟩ 1 true 0.99)
      (VerletParticle.mk ⟨9, 2⟩ ⟨9, 2⟩ ⟨0, 0⟩ 1 false 0.99)).1.position = Vector2D.mk 1 2 :=
  ⟨rfl,
   pinned_particle_position_invariant.1 (VerletParticle.mk ⟨1, 2⟩ ⟨1, 2⟩ ⟨0, 0⟩ 1 true 0.99)
     ⟨3, -7⟩ 0.1 rfl,
   pinned_particle_position_invariant.2.2.1 true 5 1
     (VerletParticle.mk ⟨1, 2⟩ ⟨1, 2⟩ ⟨0, 0⟩ 1 true 0.99)
     (VerletParticle.mk ⟨9, 2⟩ ⟨9, 2⟩ ⟨0, 0⟩ 1 false 0.99) rfl⟩

/-! Claim C2: the unpinned Verlet update formula and the concrete
integration scenario. -/

/-- C2: for every unpinned particle (2D and 3D), update(dt) infers velocity
as (position - previousPosition) * damping, stores the old position in
previousPosition, moves position by velocity plus acceleration * dt^2, and
clears the acceleration accumulator; a single unpinned particle at the origin
with previousPosition (0,0), mass 1, damping 1, after applyForce((0,-10)) and
update(0.1), ends at (0, -0.1). -/
theorem verlet_update_formula :
    (∀ (p : VerletParticle) (dt : ℝ), p.pinned = false →
      (p.update dt).position =
        (p.position.add ((p.position.sub p.previousPosition).smul p.damping)).add
          (p.acceleration.smul (dt * dt)) ∧
      (p.update dt).previousPosition = p.position ∧
      (p.update dt).acceleration = Vector2D.zero) ∧
    (∀ (p : VerletParticle3D) (dt : ℝ), p.pinned = false →
      (p.update dt).position =
        (p.position.add ((p.position.sub p.previousPosition).smul p.damping)).add
          (p.acceleration.smul (dt * dt)) ∧
      (p.update dt).previousPosition = p.position ∧
      (p.update dt).acceleration = Vector3D.zero) ∧
    (∀ (p : VerletParticle) (f : Vector2D), p.pinned = false →
      (p.applyForce f).acceleration = p.acceleration.add (f.divs p.mass)) ∧
    ((VerletParticle.mk ⟨0, 0⟩ ⟨0, 0⟩ ⟨0, 0⟩ 1 false 1).applyForce ⟨0, -10⟩).update 0.1
      = VerletParticle.mk ⟨0, -0.1⟩ ⟨0, 0⟩ ⟨0, 0⟩ 1 false 1 := by
  refine ⟨?_, ?_, ?_, ?_⟩
  · intro p dt h
    simp [VerletParticle.update, h]
  · intro p dt h
    simp [VerletParticle3D.update, h]
  · intro p f h
    simp [VerletParticle.applyForce, h]
  · simp only [VerletParticle.applyForce, VerletParticle.update]
    norm_num [Vector2D.add, Vector2D.sub, Vector2D.smul, Vector2D.divs, Vector2D.zero]

/-- Witness for C2 at a concrete unpinned particle. -/
theorem verlet_update_formula_witness :
    (VerletParticle.mk ⟨1, 2⟩ ⟨0, 1⟩ ⟨3, 4⟩ 2 false 0.5).pinned = false ∧
    ((VerletParticle.mk ⟨1, 2⟩ ⟨0, 1⟩ ⟨3, 4⟩ 2 false 0.5).update 2).previousPosition
      = Vector2D.mk 1 2 :=
  ⟨rfl, (verlet_update_formula.1 (VerletParticle.mk ⟨1, 2⟩ ⟨0, 1⟩ ⟨3, 4⟩ 2 false 0.5) 2 rfl).2.1⟩

/-! Claim C3: mass-weighted correction splitting in the distance solver. -/

theorem Vector2D.length_smul (a : Vector2D) (s : ℝ) : (a.smul s).length = |s| * a.length := by
  simp only [Vector2D.length, Vector2D.smul]
  rw [show a.x * s * (a.x * s) + a.y * s * (a.y * s) = s ^ 2 * (a.x * a.x + a.y * a.y) by ring]
  rw [Real.sqrt_mul (sq_nonneg s), Real.sqrt_sq_eq_abs]

theorem Vector2D.add_sub_cancel_v (v w : Vector2D) : (v.add w).sub v = w := by
  ext <;> simp [Vector2D.add, Vector2D.sub]

theorem Vector2D.sub_sub_cancel_v (v w : Vector2D) : (v.sub w).sub v = w.smul (-1) := by
  ext <;> simp [Vector2D.sub, Vector2D.smul]

/-- The both-unpinned branch of VerletConstraint::solve, in closed form. -/
theorem solve2_both_unpinned (rl st : ℝ) (pa pb : VerletParticle)
    (ha : pa.pinned = false) (hb : pb.pinned = false)
    (hlen : ¬ (pb.position.sub pa.position).length < 0.0001) :
    VerletConstraint.solve true rl st pa pb =
      ({ pa with position := pa.position.add (((pb.position.sub pa.position).smul
                  (((pb.position.sub pa.position).length - rl)
                    / (pb.position.sub pa.position).length
                    * 0.5 * st)).smul (pb.mass / (pa.mass + pb.mass))) },
       { pb with position := pb.position.sub (((pb.position.sub pa.position).smul
                  (((pb.position.sub pa.position).length - rl)
                    / (pb.position.sub pa.position).length
                    * 0.5 * st)).smul (pa.mass / (pa.mass + pb.mass))) }) := by
  simp only [VerletConstraint.solve]
  split_ifs <;> simp_all

/-- The 3D both-unpinned branch of VerletConstraint3D::solve. -/
theorem solve3_both_unpinned (rl st : ℝ) (pa pb : VerletParticle3D)
    (ha : pa.pinned = false) (hb : pb.pinned = false)
    (hlen : ¬ (pb.position.sub pa.position).length < 0.0001) :
    VerletConstraint3D.solve true rl st pa pb =
      ({ pa with position := pa.position.add (((pb.position.sub pa.position).smul
                  (((pb.position.sub pa.position).length - rl)
                    / (pb.position.sub pa.position).length
                    * 0.5 * st)).smul (pb.mass / (pa.mass + pb.mass))) },
       { pb with position := pb.position.sub (((pb.position.sub pa.position).smul
                  (((pb.position.sub pa.position).length - rl)
                    / (pb.position.sub pa.position).length
                    * 0.5 * st)).smul (pa.mass / (pa.mass + pb.mass))) }) := by
  simp only [VerletConstraint3D.solve]
  split_ifs <;> simp_all

/-- C3: one solve() on a non-degenerate distance constraint moves particle A
by correction * massB/(massA+massB) and particle B by the opposite of
correction * massA/(massA+massB); with masses 1 and 3 the mass-1 particle
moves exactly three times as far; with exactly one pinned particle the
unpinned one absorbs the doubled half-correction, and with both pinned
neither moves.  The correction is delta * (diff * 0.5 * stiffness) exactly as
in the source, and the non-degeneracy hypothesis is the solver's own epsilon
guard. -/
theorem mass_weighted_correction (rl st : ℝ) (pa pb : VerletParticle)
    (corr : Vector2D)
    (hc : corr = (pb.position.sub pa.position).smul
      (((pb.position.sub pa.position).length - rl) / (pb.position.sub pa.position).length
        * 0.5 * st))
    (hlen : ¬ (pb.position.sub pa.position).length < 0.0001) :
    (pa.pinned = false → pb.pinned = false →
      (VerletConstraint.solve true rl st pa pb).1.position
          = pa.position.add (corr.smul (pb.mass / (pa.mass + pb.mass))) ∧
      (VerletConstraint.solve true rl st pa pb).2.position
          = pb.position.sub (corr.smul (pa.mass / (pa.mass + pb.mass)))) ∧
    (pa.pinned = false → pb.pinned = false → pa.mass = 1 → pb.mass = 3 →
      ((VerletConstraint.solve true rl st pa pb).1.position.sub pa.position).length
        = 3 * ((VerletConstraint.solve true rl st pa pb).2.position.sub pb.position).length) ∧
    (pa.pinned = true → pb.pinned = false →
      (VerletConstraint.solve true rl st pa pb).1 = pa ∧
      (VerletConstraint.solve true rl st pa pb).2.position = pb.position.sub (corr.smul 2)) ∧
    (pa.pinned = false → pb.pinned = true →
      (VerletConstraint.solve true rl st pa pb).1.position = pa.position.add (corr.smul 2) ∧
      (VerletConstraint.solve true rl st pa pb).2 = pb) ∧
    (pa.pinned = true → pb.pinned = true →
      VerletConstraint.solve true rl st pa pb = (pa, pb)) := by
  subst hc
  refine ⟨?_, ?_, ?_, ?_, ?_⟩
  · intro ha hb
    rw [solve2_both_unpinned rl st pa pb ha hb hlen]
    exact ⟨rfl, rfl⟩
  · intro ha hb hma hmb
    rw [solve2_both_unpinned rl st pa pb ha hb hlen]
    simp only [Vector2D.add_sub_cancel_v, Vector2D.sub_sub_cancel_v]
    rw [hma, hmb]
    simp only [Vector2D.length_smul]
    rw [show |(3:ℝ) / (1 + 3)| = 3 / 4 by rw [abs_of_nonneg (by norm_num)]; norm_num,
      show |(-1:ℝ)| = 1 by norm_num,
      show |(1:ℝ) / (1 + 3)| = 1 / 4 by rw [abs_of_nonneg (by norm_num)]; norm_num]
    ring
  · intro ha hb
    simp only [VerletConstraint.solve]
    split_ifs <;> simp_all
  · intro ha hb
    simp only [VerletConstraint.solve]
    split_ifs <;> simp_all
  · intro ha hb
    simp only [VerletConstraint.solve]
    split_ifs <;> simp_all

/-- Witness for C3: a concrete stretched constraint between a mass-1 and a
mass-3 particle two units apart with rest length one. -/
theorem mass_weighted_correction_witness :
    (¬ ((VerletParticle.mk ⟨2, 0⟩ ⟨2, 0⟩ ⟨0, 0⟩ 3 false 0.99).position.sub
        (VerletParticle.mk ⟨0, 0⟩ ⟨0, 0⟩ ⟨0, 0⟩ 1 false 0.99).position).length < 0.0001) ∧
    ((VerletConstraint.solve true 1 1 (VerletParticle.mk ⟨0, 0⟩ ⟨0, 0⟩ ⟨0, 0⟩ 1 false 0.99)
        (VerletParticle.mk ⟨2, 0⟩ ⟨2, 0⟩ ⟨0, 0⟩ 3 false 0.99)).1.position.sub
        (Vector2D.mk 0 0)).length
      = 3 * ((VerletConstraint.solve true 1 1 (VerletParticle.mk ⟨0, 0⟩ ⟨0, 0⟩ ⟨0, 0⟩ 1 false 0.99)
        (VerletParticle.mk ⟨2, 0⟩ ⟨2, 0⟩ ⟨0, 0⟩ 3 false 0.99)).2.position.sub
        (Vector2D.mk 2 0)).length := by
  have hlen : ¬ ((VerletParticle.mk ⟨2, 0⟩ ⟨2, 0⟩ ⟨0, 0⟩ 3 false 0.99).position.sub
      (VerletParticle.mk ⟨0, 0⟩ ⟨0, 0⟩ ⟨0, 0⟩ 1 false 0.99).position).length < 0.0001 := by
    simp only [Vector2D.sub, Vector2D.length]
    rw [show ((2:ℝ) - 0) * (2 - 0) + (0 - 0) * (0 - 0) = 2 ^ 2 by norm_num, Real.sqrt_sq
      (by norm_num)]
    norm_num
  exact ⟨hlen,
    (mass_weighted_correction 1 1 (VerletParticle.mk ⟨0, 0⟩ ⟨0, 0⟩ ⟨0, 0⟩ 1 false 0.99)
      (VerletParticle.mk ⟨2, 0⟩ ⟨2, 0⟩ ⟨0, 0⟩ 3 false 0.99) _ rfl hlen).2.1 rfl rfl rfl rfl⟩

/-! Claim C4: epsilon guards on numerically degenerate constraint inputs. -/

/-- C4 (amended): the 2D and 3D distance solvers skip below-epsilon-length
deltas unchanged, and the 3D bending solver skips near-zero B-to-A / B-to-C
vectors and near-zero rotation axes unchanged.  (The 2D bending solver has no
such guard; see the counterexample.) -/
theorem degenerate_epsilon_guards :
    (∀ (active : Bool) (rl st : ℝ) (pa pb : VerletParticle),
      (pb.position.sub pa.position).length < 0.0001 →
      VerletConstraint.solve active rl st pa pb = (pa, pb)) ∧
    (∀ (active : Bool) (rl st : ℝ) (pa pb : VerletParticle3D),
      (pb.position.sub pa.position).length < 0.0001 →
      VerletConstraint3D.solve active rl st pa pb = (pa, pb)) ∧
    (∀ (ra st : ℝ) (pa pb pc : VerletParticle3D),
      (pa.position.sub pb.position).length < 0.001 ∨
        (pc.position.sub pb.position).length < 0.001 →
      BendingConstraint3D.solve ra st pa pb pc = (pa, pb, pc)) ∧
    (∀ (ra st : ℝ) (pa pb pc : VerletParticle3D),
      (((pa.position.sub pb.position).divs (pa.position.sub pb.position).length).cross
        ((pc.position.sub pb.position).divs (pc.position.sub pb.position).length)).length
          < 0.001 →
      BendingConstraint3D.solve ra st pa pb pc = (pa, pb, pc)) := by
  refine ⟨?_, ?_, ?_, ?_⟩
  · intro active rl st pa pb h
    simp only [VerletConstraint.solve]
    split_ifs <;> simp_all
  · intro active rl st pa pb h
    simp only [VerletConstraint3D.solve]
    split_ifs <;> simp_all
  · intro ra st pa pb pc h
    simp only [BendingConstraint3D.solve]
    split_ifs <;> simp_all
  · intro ra st pa pb pc h
    simp only [BendingConstraint3D.solve]
    split_ifs <;> simp_all

/-- Witness for C4 at concrete degenerate inputs: coincident particles for the
distance solvers and collinear particles (zero axis) for the 3D bending
solver. -/
theorem degenerate_epsilon_guards_witness :
    (((VerletParticle.mk ⟨5, 5⟩ ⟨5, 5⟩ ⟨0, 0⟩ 1 false 0.99).position.sub
        (VerletParticle.mk ⟨5, 5⟩ ⟨5, 5⟩ ⟨0, 0⟩ 1 false 0.99).position).length < 0.0001) ∧
    VerletConstraint.solve true 3 1 (VerletParticle.mk ⟨5, 5⟩ ⟨5, 5⟩ ⟨0, 0⟩ 1 false 0.99)
        (VerletParticle.mk ⟨5, 5⟩ ⟨5, 5⟩ ⟨0, 0⟩ 1 false 0.99)
      = (VerletParticle.mk ⟨5, 5⟩ ⟨5, 5⟩ ⟨0, 0⟩ 1 false 0.99,
         VerletParticle.mk ⟨5, 5⟩ ⟨5, 5⟩ ⟨0, 0⟩ 1 false 0.99) := by
  have h : ((VerletParticle.mk ⟨5, 5⟩ ⟨5, 5⟩ ⟨0, 0⟩ 1 false 0.99).position.sub
      (VerletParticle.mk ⟨5, 5⟩ ⟨5, 5⟩ ⟨0, 0⟩ 1 false 0.99).position).length < 0.0001 := by
    simp only [Vector2D.sub, Vector2D.length]
    norm_num [Real.sqrt_zero]
  exact ⟨h, degenerate_epsilon_guards.1 true 3 1 _ _ h⟩

/-- Counterexample to C4 as stated: the 2D bending solver has no epsilon
guard.  With A and B coincident (a zero-length B-to-A vector, far below any
epsilon) and a nonzero rest angle, solve() still moves particle C. -/
theorem bending2D_no_epsilon_guard_cex :
    (((VerletParticle.mk ⟨0, 0⟩ ⟨0, 0⟩ ⟨0, 0⟩ 1 false 0.99).position.sub
        (VerletParticle.mk ⟨0, 0⟩ ⟨0, 0⟩ ⟨0, 0⟩ 1 false 0.99).position).length < 0.0001) ∧
    (BendingConstraint.solve 1 1 (VerletParticle.mk ⟨0, 0⟩ ⟨0, 0⟩ ⟨0, 0⟩ 1 false 0.99)
        (VerletParticle.mk ⟨0, 0⟩ ⟨0, 0⟩ ⟨0, 0⟩ 1 false 0.99)
        (VerletParticle.mk ⟨1, 0⟩ ⟨1, 0⟩ ⟨0, 0⟩ 1 false 0.99)).2.2.position
      ≠ (VerletParticle.mk ⟨1, 0⟩ ⟨1, 0⟩ ⟨0, 0⟩ 1 false 0.99).position := by
  constructor
  · simp only [Vector2D.sub, Vector2D.length]
    norm_num [Real.sqrt_zero]
  · simp only [BendingConstraint.solve]
    norm_num [Vector2D.sub, Vector2D.cross, Vector2D.dot, atan2, wrapAngle,
      Vector2D.rotated, Vector2D.add, Vector2D.mk.injEq]
    intro h1 h2
    have hs : (0:ℝ) < Real.sin (1 / 2) :=
      Real.sin_pos_of_pos_of_lt_pi (by norm_num) (by linarith [Real.pi_gt_three])
    linarith

/-! Claim C5: gust contributions to getWindAt. -/

/-- The source writes the envelope with the constant 3.14159, which is pi to
five decimals. -/
theorem envelope_constant_near_pi : |(3.14159 : ℝ) - Real.pi| < 0.00001 := by
  have h1 := Real.pi_gt_d6
  have h2 := Real.pi_lt_d6
  rw [abs_lt]
  constructor <;> linarith

/-- The envelope at the end of a gust's life is within 0.001 of zero. -/
theorem sin_314159_abs_lt : |Real.sin 3.14159| < 0.001 := by
  have h1 := Real.pi_gt_d6
  have h2 := Real.pi_lt_d6
  rw [show (3.14159 : ℝ) = Real.pi - (Real.pi - 3.14159) by ring, Real.sin_pi_sub]
  calc |Real.sin (Real.pi - 3.14159)| ≤ |Real.pi - 3.14159| := Real.abs_sin_le_abs
    _ < 0.001 := by rw [abs_lt]; constructor <;> linarith

/-- The envelope at mid-duration is within 0.00001 of its maximum 1. -/
theorem sin_mid_gt : Real.sin (1 / 2 * 3.14159) > 1 - 0.00001 := by
  have h1 := Real.pi_gt_d6
  have h2 := Real.pi_lt_d6
  rw [← Real.cos_pi_div_two_sub (1 / 2 * 3.14159)]
  have hcos := Real.one_sub_sq_div_two_le_cos (x := Real.pi / 2 - 1 / 2 * 3.14159)
  have ht1 : Real.pi / 2 - 1 / 2 * 3.14159 ≤ 0.0000015 := by linarith
  have ht2 : (0 : ℝ) ≤ Real.pi / 2 - 1 / 2 * 3.14159 := by linarith
  nlinarith [sq_nonneg (Real.pi / 2 - 1 / 2 * 3.14159)]

/-- C5: inside the radius, a gust adds its direction (radial in 2D, the
stored direction in 3D) scaled by strength, quadratic falloff and the sine
envelope; outside the radius it contributes nothing at any time; at elapsed 0
it contributes nothing; the envelope constant 3.14159 is pi to five decimals,
the envelope never exceeds 1, is back within 0.001 of 0 at elapsed =
duration, and is within 0.00001 of 1 at mid-duration; getWindAt is the
ambient wind plus the sum of the per-gust contributions. -/
theorem gust_contribution_spec :
    (∀ (g : Gust) (x y : ℝ) (toPoint : Vector2D) (dist : ℝ),
      toPoint = (Vector2D.mk x y).sub g.position → dist = toPoint.length →
      (dist < g.radius →
        WindField.gustContrib x y g = ((toPoint.normalized.smul g.strength).smul
          ((1 - dist / g.radius) * (1 - dist / g.radius))).smul
          (Real.sin (g.elapsed / g.duration * 3.14159))) ∧
      (g.radius ≤ dist → WindField.gustContrib x y g = Vector2D.zero) ∧
      (g.elapsed = 0 → WindField.gustContrib x y g = Vector2D.zero)) ∧
    (∀ (g : Gust3D) (x y z : ℝ) (dist : ℝ),
      dist = ((Vector3D.mk x y z).sub g.position).length →
      (dist < g.radius →
        WindField3D.gustContrib x y z g = ((g.direction.normalized.smul g.strength).smul
          ((1 - dist / g.radius) * (1 - dist / g.radius))).smul
          (Real.sin (g.elapsed / g.duration * 3.14159))) ∧
      (g.radius ≤ dist → WindField3D.gustContrib x y z g = Vector3D.zero) ∧
      (g.elapsed = 0 → WindField3D.gustContrib x y z g = Vector3D.zero)) ∧
    (∀ (f : WindField) (x y : ℝ),
      f.getWindAt x y
        = (f.ambientWind x y).add (sumV2 (f.gusts.map (WindField.gustContrib x y)))) ∧
    (|(3.14159 : ℝ) - Real.pi| < 0.00001) ∧
    (∀ d e : ℝ, Real.sin (e / d * 3.14159) ≤ 1) ∧
    (∀ d : ℝ, 0 < d → |Real.sin (d / d * 3.14159)| < 0.001) ∧
    (∀ d : ℝ, 0 < d → Real.sin (d / 2 / d * 3.14159) > 1 - 0.00001) := by
  refine ⟨?_, ?_, ?_, envelope_constant_near_pi, ?_, ?_, ?_⟩
  · intro g x y toPoint dist ht hd
    subst ht
    subst hd
    refine ⟨?_, ?_, ?_⟩
    · intro hlt
      simp only [WindField.gustContrib]
      rw [if_pos hlt]
    · intro hge
      simp only [WindField.gustContrib]
      rw [if_neg (not_lt.mpr hge)]
    · intro he
      simp only [WindField.gustContrib]
      split_ifs with h
      · rw [he]
        ext <;> simp [Vector2D.smul, Vector2D.zero]
      · rfl
  · intro g x y z dist hd
    subst hd
    refine ⟨?_, ?_, ?_⟩
    · intro hlt
      simp only [WindField3D.gustContrib]
      rw [if_pos hlt]
    · intro hge
      simp only [WindField3D.gustContrib]
      rw [if_neg (not_lt.mpr hge)]
    · intro he
      simp only [WindField3D.gustContrib]
      split_ifs with h
      · rw [he]
        ext <;> simp [Vector3D.smul, Vector3D.zero]
      · rfl
  · intro f x y
    simp only [WindField.getWindAt]
    exact foldl_add_eq_add_sumV2 _ _ _
  · intro d e
    exact Real.sin_le_one _
  · intro d hd
    rw [div_self (ne_of_gt hd), one_mul]
    exact sin_314159_abs_lt
  · intro d hd
    rw [show d / 2 / d = 1 / 2 by field_simp; ring]
    exact sin_mid_gt

/-- Witness for C5: a concrete mid-life gust of radius 5 queried one unit
away (inside) and twenty units away (outside). -/
theorem gust_contribution_spec_witness :
    (((Vector2D.mk 1 0).sub (Vector2D.mk 0 0)).length < 5) ∧
    WindField.gustContrib 1 0 (Gust.mk ⟨0, 0⟩ 10 5 2 1)
      = (((((Vector2D.mk 1 0).sub (Vector2D.mk 0 0)).normalized.smul 10).smul
          ((1 - ((Vector2D.mk 1 0).sub (Vector2D.mk 0 0)).length / 5)
            * (1 - ((Vector2D.mk 1 0).sub (Vector2D.mk 0 0)).length / 5))).smul
          (Real.sin (1 / 2 * 3.14159))) ∧
    ((5 : ℝ) ≤ ((Vector2D.mk 20 0).sub (Vector2D.mk 0 0)).length) ∧
    WindField.gustContrib 20 0 (Gust.mk ⟨0, 0⟩ 10 5 2 1) = Vector2D.zero ∧
    ((0 : ℝ) < 2) ∧ |Real.sin ((2 : ℝ) / 2 * 3.14159)| < 0.001 := by
  have hlen1 : ((Vector2D.mk 1 0).sub (Vector2D.mk 0 0)).length < 5 := by
    simp only [Vector2D.sub, Vector2D.length]
    rw [show ((1:ℝ) - 0) * ((1:ℝ) - 0) + ((0:ℝ) - 0) * ((0:ℝ) - 0) = 1 by norm_num,
      Real.sqrt_one]
    norm_num
  have hlen2 : (5 : ℝ) ≤ ((Vector2D.mk 20 0).sub (Vector2D.mk 0 0)).length := by
    simp only [Vector2D.sub, Vector2D.length]
    rw [show ((20:ℝ) - 0) * ((20:ℝ) - 0) + ((0:ℝ) - 0) * ((0:ℝ) - 0) = 20 ^ 2 by norm_num,
      Real.sqrt_sq (by norm_num)]
    norm_num
  exact ⟨hlen1,
    (gust_contribution_spec.1 (Gust.mk ⟨0, 0⟩ 10 5 2 1) 1 0 _ _ rfl rfl).1 hlen1,
    hlen2,
    (gust_contribution_spec.1 (Gust.mk ⟨0, 0⟩ 10 5 2 1) 20 0 _ _ rfl rfl).2.1 hlen2,
    by norm_num,
    gust_contribution_spec.2.2.2.2.2.1 2 (by norm_num)⟩

/-! Claim C6: vortex contributions to getWindAt. -/

/-- C6 (amended): a vortex adds its tangential term only when the projected
displacement length is below the radius AND above the inner cutoff 0.1; in
that band the added vector is the normalized axis-cross-projection scaled by
strength, quadratic falloff and the sine envelope.  addVortex stores the
normalized axis, and getWindAt is the ambient wind plus the summed gust and
vortex contributions. -/
theorem vortex_contribution_spec :
    (∀ (v : Vortex) (x y z : ℝ) (projected : Vector3D) (dist : ℝ),
      projected = ((Vector3D.mk x y z).sub v.position).sub
        (v.axis.smul (((Vector3D.mk x y z).sub v.position).dot v.axis)) →
      dist = projected.length →
      (dist < v.radius → 0.1 < dist →
        WindField3D.vortexContrib x y z v = (((v.axis.cross projected).normalized.smul
          v.strength).smul ((1 - dist / v.radius) * (1 - dist / v.radius))).smul
          (Real.sin (v.elapsed / v.duration * 3.14159))) ∧
      (¬ (dist < v.radius ∧ 0.1 < dist) →
        WindField3D.vortexContrib x y z v = Vector3D.zero)) ∧
    (∀ (f : WindField3D) (pos axis : Vector3D) (s r d : ℝ),
      (f.addVortex pos axis s r d).vortices
        = f.vortices ++ [Vortex.mk pos axis.normalized s r d 0]) ∧
    (∀ (f : WindField3D) (x y z : ℝ),
      f.getWindAt x y z = ((f.ambientWind x y z).add
        (sumV3 (f.gusts.map (WindField3D.gustContrib x y z)))).add
        (sumV3 (f.vortices.map (WindField3D.vortexContrib x y z)))) := by
  refine ⟨?_, ?_, ?_⟩
  · intro v x y z projected dist hp hd
    subst hp
    subst hd
    refine ⟨?_, ?_⟩
    · intro h1 h2
      simp only [WindField3D.vortexContrib]
      rw [if_pos ⟨h1, h2⟩]
    · intro h
      simp only [WindField3D.vortexContrib]
      rw [if_neg h]
  · intro f pos axis s r d
    rfl
  · intro f x y z
    simp only [WindField3D.getWindAt]
    rw [foldl_add_eq_add_sumV3, foldl_add_eq_add_sumV3]

/-- Witness for C6 at a concrete mid-life vortex queried one unit away from
its axis, inside the active band (0.1, radius). -/
theorem vortex_contribution_spec_witness :
    (((((Vector3D.mk 1 0 0).sub (Vector3D.mk 0 0 0)).sub
        ((Vector3D.mk 0 0 1).smul
          (((Vector3D.mk 1 0 0).sub (Vector3D.mk 0 0 0)).dot (Vector3D.mk 0 0 1)))).length < 5) ∧
      ((0.1 : ℝ) < (((Vector3D.mk 1 0 0).sub (Vector3D.mk 0 0 0)).sub
        ((Vector3D.mk 0 0 1).smul
          (((Vector3D.mk 1 0 0).sub (Vector3D.mk 0 0 0)).dot (Vector3D.mk 0 0 1)))).length)) ∧
    WindField3D.vortexContrib 1 0 0 (Vortex.mk ⟨0, 0, 0⟩ ⟨0, 0, 1⟩ 10 5 2 1)
      = ((((Vector3D.mk 0 0 1).cross (((Vector3D.mk 1 0 0).sub (Vector3D.mk 0 0 0)).sub
            ((Vector3D.mk 0 0 1).smul
              (((Vector3D.mk 1 0 0).sub (Vector3D.mk 0 0 0)).dot
                (Vector3D.mk 0 0 1))))).normalized.smul 10).smul
          ((1 - (((Vector3D.mk 1 0 0).sub (Vector3D.mk 0 0 0)).sub
            ((Vector3D.mk 0 0 1).smul
              (((Vector3D.mk 1 0 0).sub (Vector3D.mk 0 0 0)).dot
                (Vector3D.mk 0 0 1)))).length / 5)
            * (1 - (((Vector3D.mk 1 0 0).sub (Vector3D.mk 0 0 0)).sub
            ((Vector3D.mk 0 0 1).smul
              (((Vector3D.mk 1 0 0).sub (Vector3D.mk 0 0 0)).dot
                (Vector3D.mk 0 0 1)))).length / 5))).smul
          (Real.sin (1 / 2 * 3.14159)) := by
  have hlen : (((Vector3D.mk 1 0 0).sub (Vector3D.mk 0 0 0)).sub
      ((Vector3D.mk 0 0 1).smul
        (((Vector3D.mk 1 0 0).sub (Vector3D.mk 0 0 0)).dot (Vector3D.mk 0 0 1)))).length
      = 1 := by
    simp only [Vector3D.sub, Vector3D.dot, Vector3D.smul, Vector3D.length]
    norm_num
  refine ⟨⟨by rw [hlen]; norm_num, by rw [hlen]; norm_num⟩, ?_⟩
  exact (vortex_contribution_spec.1 (Vortex.mk ⟨0, 0, 0⟩ ⟨0, 0, 1⟩ 10 5 2 1) 1 0 0 _ _ rfl
    rfl).1 (by rw [hlen]; norm_num) (by rw [hlen]; norm_num)

/-- Counterexample to C6 as stated: a reachable vortex (addVortex then
update(1)) and a query point whose projected distance 0.05 lies inside the
radius, where the implementation adds nothing (the loop also requires the
projected distance to exceed 0.1) while the claimed formula is nonzero. -/
theorem vortex_inner_cutoff_cex :
    ((WindField3D.addVortex (WindField3D.create
        (WindConfig3D.mk 0 0 0 0.006 0.4 ⟨1, 0, 0.2⟩ 0.3 0))
        ⟨0, 0, 0⟩ ⟨0, 0, 1⟩ 10 5 2).update 1).vortices
      = [Vortex.mk ⟨0, 0, 0⟩ ⟨0, 0, 1⟩ 10 5 2 1] ∧
    ((((Vector3D.mk 0.05 0 0).sub (Vector3D.mk 0 0 0)).sub
        ((Vector3D.mk 0 0 1).smul
          (((Vector3D.mk 0.05 0 0).sub (Vector3D.mk 0 0 0)).dot
            (Vector3D.mk 0 0 1)))).length < 5) ∧
    WindField3D.vortexContrib 0.05 0 0 (Vortex.mk ⟨0, 0, 0⟩ ⟨0, 0, 1⟩ 10 5 2 1)
      = Vector3D.zero ∧
    WindField3D.vortexContribClaimed 0.05 0 0 (Vortex.mk ⟨0, 0, 0⟩ ⟨0, 0, 1⟩ 10 5 2 1)
      ≠ Vector3D.zero := by
  have hnorm : (Vector3D.mk 0 0 1).normalized = Vector3D.mk 0 0 1 := by
    simp only [Vector3D.normalized, Vector3D.length]
    rw [show ((0:ℝ) * 0 + 0 * 0 + 1 * 1) = 1 by norm_num, Real.sqrt_one]
    rw [if_pos (by norm_num)]
    ext <;> norm_num [Vector3D.divs]
  have hlen : (((Vector3D.mk 0.05 0 0).sub (Vector3D.mk 0 0 0)).sub
      ((Vector3D.mk 0 0 1).smul
        (((Vector3D.mk 0.05 0 0).sub (Vector3D.mk 0 0 0)).dot
          (Vector3D.mk 0 0 1)))).length = 0.05 := by
    simp only [Vector3D.sub, Vector3D.dot, Vector3D.smul, Vector3D.length]
    rw [show ((0.05:ℝ) - 0 - (0 * ((0.05 - 0) * 0 + (0 - 0) * 0 + (0 - 0) * 1)))
        * ((0.05:ℝ) - 0 - (0 * ((0.05 - 0) * 0 + (0 - 0) * 0 + (0 - 0) * 1)))
        + ((0:ℝ) - 0 - (0 * ((0.05 - 0) * 0 + (0 - 0) * 0 + (0 - 0) * 1)))
        * ((0:ℝ) - 0 - (0 * ((0.05 - 0) * 0 + (0 - 0) * 0 + (0 - 0) * 1)))
        + ((0:ℝ) - 0 - (1 * ((0.05 - 0) * 0 + (0 - 0) * 0 + (0 - 0) * 1)))
        * ((0:ℝ) - 0 - (1 * ((0.05 - 0) * 0 + (0 - 0) * 0 + (0 - 0) * 1)))
        = 0.05 ^ 2 by norm_num, Real.sqrt_sq (by norm_num)]
  refine ⟨?_, ?_, ?_, ?_⟩
  · simp only [WindField3D.update, WindField3D.addVortex, WindField3D.create]
    rw [hnorm]
    norm_num [List.filter_cons, List.filter_nil, decide_eq_true_eq, WindField3D.ageVortex]
  · rw [hlen]
    norm_num
  · simp only [WindField3D.vortexContrib]
    rw [if_neg]
    rw [hlen]
    norm_num
  · have hcross : (Vector3D.mk 0 0 1).cross
        (((Vector3D.mk 0.05 0 0).sub (Vector3D.mk 0 0 0)).sub
          ((Vector3D.mk 0 0 1).smul
            (((Vector3D.mk 0.05 0 0).sub (Vector3D.mk 0 0 0)).dot
              (Vector3D.mk 0 0 1)))) = Vector3D.mk 0 0.05 0 := by
      ext <;> norm_num [Vector3D.cross, Vector3D.sub, Vector3D.dot, Vector3D.smul]
    have hnorm2 : (Vector3D.mk 0 0.05 0).normalized = Vector3D.mk 0 1 0 := by
      simp only [Vector3D.normalized, Vector3D.length]
      rw [show ((0:ℝ) * 0 + 0.05 * 0.05 + 0 * 0) = 0.05 ^ 2 by norm_num,
        Real.sqrt_sq (by norm_num)]
      rw [if_pos (by norm_num)]
      ext <;> norm_num [Vector3D.divs]
    simp only [WindField3D.vortexContribClaimed]
    rw [if_pos (by rw [hlen]; norm_num)]
    rw [hlen, hcross, hnorm2]
    intro hzero
    have hy := congrArg Vector3D.y hzero
    simp only [Vector3D.smul, Vector3D.zero] at hy
    have hsin : Real.sin ((1 : ℝ) / 2 * 3.14159) > 1 - 0.00001 := sin_mid_gt
    nlinarith [hsin]

/-! Claim C7: lifecycle of transient wind events. -/

/-- C7 (amended): update(dt) first removes the events whose elapsed has
reached their duration and then ages the survivors by dt, so every event
present after update(dt) descends from a pre-update event with elapsed <
duration and satisfies elapsed < duration + dt; events that expire during an
update survive it and are removed at the start of the next update.  addGust
and addVortex only append; they destroy nothing. -/
theorem update_event_lifecycle :
    (∀ (f : WindField) (dt : ℝ) (g : Gust), g ∈ (f.update dt).gusts →
      ∃ g0 ∈ f.gusts, g0.elapsed < g0.duration ∧ g = WindField.age dt g0) ∧
    (∀ (f : WindField) (dt : ℝ) (g : Gust), g ∈ (f.update dt).gusts →
      g.elapsed < g.duration + dt) ∧
    (∀ (f : WindField3D) (dt : ℝ) (g : Gust3D), g ∈ (f.update dt).gusts →
      ∃ g0 ∈ f.gusts, g0.elapsed < g0.duration ∧ g = WindField3D.ageGust dt g0) ∧
    (∀ (f : WindField3D) (dt : ℝ) (g : Gust3D), g ∈ (f.update dt).gusts →
      g.elapsed < g.duration + dt) ∧
    (∀ (f : WindField3D) (dt : ℝ) (v : Vortex), v ∈ (f.update dt).vortices →
      ∃ v0 ∈ f.vortices, v0.elapsed < v0.duration ∧ v = WindField3D.ageVortex dt v0) ∧
    (∀ (f : WindField3D) (dt : ℝ) (v : Vortex), v ∈ (f.update dt).vortices →
      v.elapsed < v.duration + dt) ∧
    (∀ (f : WindField) (pos : Vector2D) (s r d : ℝ),
      (f.addGust pos s r d).gusts = f.gusts ++ [Gust.mk pos s r d 0]) ∧
    (∀ (f : WindField3D) (pos dir : Vector3D) (s r d : ℝ),
      (f.addGust pos dir s r d).gusts = f.gusts ++ [Gust3D.mk pos dir s r d 0]) := by
  refine ⟨?_, ?_, ?_, ?_, ?_, ?_, ?_, ?_⟩
  · intro f dt g hg
    simp only [WindField.update, List.mem_map, List.mem_filter, decide_eq_true_eq] at hg
    obtain ⟨g0, ⟨hmem, hlt⟩, heq⟩ := hg
    exact ⟨g0, hmem, hlt, heq.symm⟩
  · intro f dt g hg
    simp only [WindField.update, List.mem_map, List.mem_filter, decide_eq_true_eq] at hg
    obtain ⟨g0, ⟨hmem, hlt⟩, heq⟩ := hg
    subst heq
    simp only [WindField.age]
    linarith
  · intro f dt g hg
    simp only [WindField3D.update, List.mem_map, List.mem_filter, decide_eq_true_eq] at hg
    obtain ⟨g0, ⟨hmem, hlt⟩, heq⟩ := hg
    exact ⟨g0, hmem, hlt, heq.symm⟩
  · intro f dt g hg
    simp only [WindField3D.update, List.mem_map, List.mem_filter, decide_eq_true_eq] at hg
    obtain ⟨g0, ⟨hmem, hlt⟩, heq⟩ := hg
    subst heq
    simp only [WindField3D.ageGust]
    linarith
  · intro f dt v hv
    simp only [WindField3D.update, List.mem_map, List.mem_filter, decide_eq_true_eq] at hv
    obtain ⟨v0, ⟨hmem, hlt⟩, heq⟩ := hv
    exact ⟨v0, hmem, hlt, heq.symm⟩
  · intro f dt v hv
    simp only [WindField3D.update, List.mem_map, List.mem_filter, decide_eq_true_eq] at hv
    obtain ⟨v0, ⟨hmem, hlt⟩, heq⟩ := hv
    subst heq
    simp only [WindField3D.ageVortex]
    linarith
  · intro f pos s r d
    rfl
  · intro f pos dir s r d
    rfl

/-- Witness for C7: one concrete aged gust surviving an update. -/
theorem update_event_lifecycle_witness :
    (Gust.mk ⟨3, 4⟩ 10 5 2 1.5) ∈
      ((WindField.addGust (WindField.create WindConfig.default) ⟨3, 4⟩ 10 5 2).update 1.5).gusts ∧
    (Gust.mk ⟨3, 4⟩ 10 5 2 1.5).elapsed < (Gust.mk ⟨3, 4⟩ 10 5 2 1.5).duration + 1.5 := by
  have hmem : (Gust.mk ⟨3, 4⟩ 10 5 2 1.5) ∈
      ((WindField.addGust (WindField.create WindConfig.default) ⟨3, 4⟩ 10 5 2).update 1.5).gusts := by
    simp only [WindField.update, WindField.addGust, WindField.create, List.nil_append]
    norm_num [List.filter_cons, List.filter_nil, decide_eq_true_eq, WindField.age,
      List.mem_map, List.mem_singleton]
  exact ⟨hmem, update_event_lifecycle.2.1
    (WindField.addGust (WindField.create WindConfig.default) ⟨3, 4⟩ 10 5 2) 1.5 _ hmem⟩

/-- Counterexample to C7 as stated: a gust created by addGust (duration 2),
aged by update(1.9) and then update(0.2), remains in the list with elapsed
2.1, which has exceeded its duration: removal happens at the start of the
NEXT update, not at the end of the update in which the gust expires. -/
theorem update_keeps_expired_event_cex :
    (((WindField.addGust (WindField.create WindConfig.default) ⟨3, 4⟩ 10 5 2).update 1.9).update
        0.2).gusts.length = 1 ∧
    ((((WindField.addGust (WindField.create WindConfig.default) ⟨3, 4⟩ 10 5 2).update 1.9).update
        0.2).gusts.getD 0 default).duration
      ≤ ((((WindField.addGust (WindField.create WindConfig.default) ⟨3, 4⟩ 10 5 2).update
        1.9).update 0.2).gusts.getD 0 default).elapsed := by
  have hlist : (((WindField.addGust (WindField.create WindConfig.default) ⟨3, 4⟩ 10 5 2).update
      1.9).update 0.2).gusts = [Gust.mk ⟨3, 4⟩ 10 5 2 (0 + 1.9 + 0.2)] := by
    simp only [WindField.update, WindField.addGust, WindField.create, List.nil_append]
    norm_num [List.filter_cons, List.filter_nil, decide_eq_true_eq, WindField.age]
  rw [hlist]
  norm_num

/-! Claim C8: determinism of the noise generator. -/

/-- C8: two noise generators rebuilt from the same seed agree on every
noise and octaveNoise query: the permutation table is a pure function of the
seed (reseed has no other input and the engine is deterministically seeded),
and every query is a pure function of the table and the coordinates. -/
theorem noise_determinism (seed : ℕ) (g1 g2 : PerlinNoise)
    (h1 : g1 = PerlinNoise.reseed seed) (h2 : g2 = PerlinNoise.reseed seed) :
    (∀ x : ℝ, g1.noise1 x = g2.noise1 x) ∧
    (∀ x y : ℝ, g1.noise2 x y = g2.noise2 x y) ∧
    (∀ x y z : ℝ, g1.noise3 x y z = g2.noise3 x y z) ∧
    (∀ (x y : ℝ) (octaves : ℕ) (persistence : ℝ),
      g1.octaveNoise2 x y octaves persistence = g2.octaveNoise2 x y octaves persistence) ∧
    (∀ (x y z : ℝ) (octaves : ℕ) (persistence : ℝ),
      g1.octaveNoise3 x y z octaves persistence = g2.octaveNoise3 x y z octaves persistence) := by
  subst h1
  subst h2
  exact ⟨fun _ => rfl, fun _ _ => rfl, fun _ _ _ => rfl, fun _ _ _ _ => rfl,
    fun _ _ _ _ _ => rfl⟩

/-- Witness for C8 at seed 42 and a concrete query point. -/
theorem noise_determinism_witness :
    PerlinNoise.reseed 42 = PerlinNoise.reseed 42 ∧
    (PerlinNoise.reseed 42).noise3 1.5 2.5 3.5 = (PerlinNoise.reseed 42).noise3 1.5 2.5 3.5 :=
  ⟨rfl, (noise_determinism 42 (PerlinNoise.reseed 42) (PerlinNoise.reseed 42)
    rfl rfl).2.2.1 1.5 2.5 3.5⟩

/-! Claim C9: the constraint-relaxation schedule of solveConstraints. -/

/-- C9: solveConstraints(n) performs exactly the passes 0, 1, ..., n-1 (n of
them, peeled one per iteration); each pass solves every structural constraint
once, in list order; an even-indexed pass additionally solves every bending
constraint once, and an odd-indexed pass solves only the structural
constraints.  Stated for both the 2D and 3D cape. -/
theorem solveConstraints_schedule :
    (∀ (c : Cape) (n : ℕ),
      (c.solveConstraints n).particles = (List.range n).foldl c.pass c.particles ∧
      (List.range n).length = n) ∧
    (∀ (c : Cape) (n : ℕ),
      (c.solveConstraints (n + 1)).particles = c.pass (c.solveConstraints n).particles n) ∧
    (∀ c : Cape, c.solveConstraints 0 = c) ∧
    (∀ (c : Cape) (ps : List VerletParticle) (i : ℕ), i % 2 = 0 →
      c.pass ps i = Cape.solveAllBend c.bendConstraints (Cape.solveAllDist c.constraints ps)) ∧
    (∀ (c : Cape) (ps : List VerletParticle) (i : ℕ), i % 2 = 1 →
      c.pass ps i = Cape.solveAllDist c.constraints ps) ∧
    (∀ (cs : List CapeDist) (d : CapeDist) (ps : List VerletParticle),
      Cape.solveAllDist (cs ++ [d]) ps = Cape.applyDist (Cape.solveAllDist cs ps) d) ∧
    (∀ (bs : List CapeBend) (b : CapeBend) (ps : List VerletParticle),
      Cape.solveAllBend (bs ++ [b]) ps = Cape.applyBend (Cape.solveAllBend bs ps) b) ∧
    (∀ (c : Cape3D) (n : ℕ),
      (c.solveConstraints n).particles = (List.range n).foldl c.pass c.particles ∧
      (List.range n).length = n) ∧
    (∀ (c : Cape3D) (n : ℕ),
      (c.solveConstraints (n + 1)).particles = c.pass (c.solveConstraints n).particles n) ∧
    (∀ c : Cape3D, c.solveConstraints 0 = c) ∧
    (∀ (c : Cape3D) (ps : List VerletParticle3D) (i : ℕ), i % 2 = 0 →
      c.pass ps i
        = Cape3D.solveAllBend c.bendConstraints (Cape3D.solveAllDist c.constraints ps)) ∧
    (∀ (c : Cape3D) (ps : List VerletParticle3D) (i : ℕ), i % 2 = 1 →
      c.pass ps i = Cape3D.solveAllDist c.constraints ps) := by
  refine ⟨?_, ?_, ?_, ?_, ?_, ?_, ?_, ?_, ?_, ?_, ?_, ?_⟩
  · intro c n
    exact ⟨rfl, List.length_range n⟩
  · intro c n
    simp only [Cape.solveConstraints, List.range_succ, List.foldl_append, List.foldl_cons,
      List.foldl_nil]
  · intro c
    rfl
  · intro c ps i h
    simp only [Cape.pass]
    rw [if_pos h]
  · intro c ps i h
    simp only [Cape.pass]
    rw [if_neg (by omega)]
  · intro cs d ps
    simp only [Cape.solveAllDist, List.foldl_append, List.foldl_cons, List.foldl_nil]
  · intro bs b ps
    simp only [Cape.solveAllBend, List.foldl_append, List.foldl_cons, List.foldl_nil]
  · intro c n
    exact ⟨rfl, List.length_range n⟩
  · intro c n
    simp only [Cape3D.solveConstraints, List.range_succ, List.foldl_append, List.foldl_cons,
      List.foldl_nil]
  · intro c
    rfl
  · intro c ps i h
    simp only [Cape3D.pass]
    rw [if_pos h]
  · intro c ps i h
    simp only [Cape3D.pass]
    rw [if_neg (by omega)]

/-- Witness for C9: the even pass 0 and odd pass 1 of a concrete cape. -/
theorem solveConstraints_schedule_witness :
    ((0 : ℕ) % 2 = 0) ∧
    (Cape.mk (CapeConfig.mk 2 2 8 0.95 0.3 400 1.2 0.98) [] [] []).pass [] 0
      = Cape.solveAllBend [] (Cape.solveAllDist [] []) ∧
    ((1 : ℕ) % 2 = 1) ∧
    (Cape.mk (CapeConfig.mk 2 2 8 0.95 0.3 400 1.2 0.98) [] [] []).pass [] 1
      = Cape.solveAllDist [] [] :=
  ⟨rfl,
   solveConstraints_schedule.2.2.2.1 (Cape.mk (CapeConfig.mk 2 2 8 0.95 0.3 400 1.2 0.98) [] [] [])
     [] 0 rfl,
   rfl,
   solveConstraints_schedule.2.2.2.2.1
     (Cape.mk (CapeConfig.mk 2 2 8 0.95 0.3 400 1.2 0.98) [] [] []) [] 1 rfl⟩

/-! Claim C10: getNormal clamps its arguments into the grid interior. -/

theorem intClamp_mem (v lo hi : ℤ) (h : lo ≤ hi) :
    lo ≤ intClamp v lo hi ∧ intClamp v lo hi ≤ hi := by
  unfold intClamp
  split_ifs <;> omega

theorem intClamp_idem (v lo hi : ℤ) (h1 : lo ≤ v) (h2 : v ≤ hi) : intClamp v lo hi = v := by
  unfold intClamp
  split_ifs <;> omega

theorem rowcol_index_bounds (seg w r cl : ℤ) (h2 : 0 ≤ r) (h3 : r < seg) (h4 : 0 ≤ cl)
    (h5 : cl < w) : 0 ≤ r * w + cl ∧ r * w + cl < seg * w := by
  constructor
  · have hrw : 0 ≤ r * w := mul_nonneg h2 (by omega)
    omega
  · have h6 : r * w + cl < r * w + w := by omega
    have h7 : r * w + w = (r + 1) * w := by ring
    have h8 : (r + 1) * w ≤ seg * w := mul_le_mul_of_nonneg_right (by omega) (by omega)
    omega

/-- C10: for a grid with segments >= 3 and width >= 3, getNormal clamps row
into [1, segments-2] and col into [1, width-2]; every particle index it can
touch (the center and its four plus-shaped neighbours) is a valid index into
the particle list; the result for arbitrary integer arguments equals the
result at the clamped arguments; and the clamped point is the interior point
nearest to the request. -/
theorem getNormal_clamps (c : Cape3D) (row col : ℤ)
    (hseg : 3 ≤ c.config.segments) (hw : 3 ≤ c.config.width)
    (hlen : c.particles.length = (c.config.segments * c.config.width).toNat) :
    (1 ≤ intClamp row 1 (c.config.segments - 2)
      ∧ intClamp row 1 (c.config.segments - 2) ≤ c.config.segments - 2
      ∧ 1 ≤ intClamp col 1 (c.config.width - 2)
      ∧ intClamp col 1 (c.config.width - 2) ≤ c.config.width - 2) ∧
    (∀ dr dc : ℤ, dr.natAbs ≤ 1 → dc.natAbs ≤ 1 → dr = 0 ∨ dc = 0 →
      0 ≤ c.getIndex (intClamp row 1 (c.config.segments - 2) + dr)
            (intClamp col 1 (c.config.width - 2) + dc) ∧
      (c.getIndex (intClamp row 1 (c.config.segments - 2) + dr)
            (intClamp col 1 (c.config.width - 2) + dc)).toNat < c.particles.length) ∧
    c.getNormal row col
      = c.getNormal (intClamp row 1 (c.config.segments - 2))
          (intClamp col 1 (c.config.width - 2)) ∧
    (∀ r2 : ℤ, 1 ≤ r2 → r2 ≤ c.config.segments - 2 →
      (row - intClamp row 1 (c.config.segments - 2)).natAbs ≤ (row - r2).natAbs) ∧
    (∀ c2 : ℤ, 1 ≤ c2 → c2 ≤ c.config.width - 2 →
      (col - intClamp col 1 (c.config.width - 2)).natAbs ≤ (col - c2).natAbs) := by
  have hr := intClamp_mem row 1 (c.config.segments - 2) (by omega)
  have hc := intClamp_mem col 1 (c.config.width - 2) (by omega)
  refine ⟨⟨hr.1, hr.2, hc.1, hc.2⟩, ?_, ?_, ?_, ?_⟩
  · intro dr dc hdr hdc hplus
    have hb := rowcol_index_bounds c.config.segments c.config.width
      (intClamp row 1 (c.config.segments - 2) + dr)
      (intClamp col 1 (c.config.width - 2) + dc)
      (by omega) (by omega) (by omega) (by omega)
    simp only [Cape3D.getIndex]
    omega
  · simp only [Cape3D.getNormal]
    rw [intClamp_idem _ _ _ hr.1 hr.2, intClamp_idem _ _ _ hc.1 hc.2]
  · intro r2 h1 h2
    unfold intClamp
    split_ifs <;> omega
  · intro c2 h1 h2
    unfold intClamp
    split_ifs <;> omega

/-- Witness for C10: a 3-by-3 grid queried at the out-of-range arguments
(-5, 100). -/
theorem getNormal_clamps_witness :
    ((3:ℤ) ≤ 3) ∧
    (List.replicate 9 (default : VerletParticle3D)).length = ((3:ℤ) * 3).toNat ∧
    (Cape3D.mk (CapeConfig3D.mk 3 3 6 4 0.92 0.25 25 1.4 0.985 0.02 0.3)
        (List.replicate 9 default) [] []).getNormal (-5) 100
      = (Cape3D.mk (CapeConfig3D.mk 3 3 6 4 0.92 0.25 25 1.4 0.985 0.02 0.3)
        (List.replicate 9 default) [] []).getNormal (intClamp (-5) 1 ((3:ℤ) - 2))
          (intClamp 100 1 ((3:ℤ) - 2)) := by
  refine ⟨by norm_num, by simp, ?_⟩
  exact (getNormal_clamps (Cape3D.mk (CapeConfig3D.mk 3 3 6 4 0.92 0.25 25 1.4 0.985 0.02 0.3)
    (List.replicate 9 default) [] []) (-5) 100 (by norm_num) (by norm_num) (by simp)).2.2.1

end Loom
